import Mathlib

/-!
Shallow embedding of the tool-use orchestration loop of `src/index.ts`
(the `AnthropicClient` class, the `Tool` registry entries and the request,
response and content-block types of the `lib/tool-use` module).

The external model endpoint is modelled as a script: a list of replies,
consumed one per request; each reply is either a response object or a
transport error carrying a message string.  Asynchronous tool handlers are
modelled as pure functions returning `Except String JVal`, where `.error`
models a rejected promise.  `Promise.all` over the tool batch is modelled
by a left-to-right fold that stops at the first failure and discards the
results of the siblings, matching the rejection semantics observed by the
caller of `Promise.all`.
-/

/-- JavaScript values flowing through tool inputs and results, restricted
to the JSON-representable ones the example program uses. -/
inductive JVal where
  | null : JVal
  | bool (b : Bool) : JVal
  | num (n : Int) : JVal
  | str (s : String) : JVal
  | arr (xs : List JVal) : JVal
  | obj (fields : List (String × JVal)) : JVal

/-- Escaping of one character inside a JSON string literal, as
`JSON.stringify` performs for quotes and backslashes. -/
def escapeChar (c : Char) : String :=
  if c = '\\' then "\\\\"
  else if c = '\"' then "\\\"" else String.singleton c

/-- Escaping of a whole string for a JSON string literal. -/
def escapeString (s : String) : String :=
  String.join (s.toList.map escapeChar)

mutual

/-- Model of `JSON.stringify` on the values of `JVal`. -/
def stringify : JVal → String
  | JVal.null => "null"
  | JVal.bool true => "true"
  | JVal.bool false => "false"
  | JVal.num n => toString n
  | JVal.str s => "\"" ++ escapeString s ++ "\""
  | JVal.arr xs => "[" ++ stringifyElems xs ++ "]"
  | JVal.obj fs => "\x7b" ++ stringifyFields fs ++ "\x7d"

/-- Comma-separated serialization of array elements. -/
def stringifyElems : List JVal → String
  | [] => ""
  | [x] => stringify x
  | x :: xs => stringify x ++ "," ++ stringifyElems xs

/-- Comma-separated serialization of object fields. -/
def stringifyFields : List (String × JVal) → String
  | [] => ""
  | [(k, v)] => "\"" ++ escapeString k ++ "\":" ++ stringify v
  | (k, v) :: fs =>
    "\"" ++ escapeString k ++ "\":" ++ stringify v ++ "," ++ stringifyFields fs

end

/-- The `ToolUse` content block type of `src/index.ts`: an invocation
emitted by the endpoint, with an opaque id, a tool name and an input. -/
structure ToolUse where
  id : String
  name : String
  input : JVal

/-- A content block of an `AnthropicResponse`: a text block or a
tool-invocation block (`TextContent | ToolUse` in the source). -/
inductive ContentBlock where
  | text (t : String)
  | toolUse (tu : ToolUse)

/-- The `AnthropicResponse` type of `src/index.ts`.  `stop_reason` is
`'tool_use' | 'end_turn' | string` in the source, i.e. an arbitrary
string. -/
structure AnthropicResponse where
  id : String
  model : String
  stop_reason : String
  role : String
  content : List ContentBlock

/-- The `ToolResult` block type of `src/index.ts`. -/
structure ToolResult where
  tool_use_id : String
  content : String
deriving DecidableEq

/-- A block inside a request message: `TextContent | ToolUse | ToolResult`
in the source. -/
inductive MessageBlock where
  | text (t : String)
  | toolUse (tu : ToolUse)
  | toolResult (tr : ToolResult)

/-- Content of a request message: a plain string or a list of blocks. -/
inductive MessageContent where
  | str (s : String)
  | blocks (bs : List MessageBlock)

/-- One conversation turn of an `AnthropicRequest`. -/
structure Message where
  role : String
  content : MessageContent

/-- The `ToolSchema` type of `src/index.ts` (after the zod-to-JSON-schema
conversion, which is outside the modelled scope, the schema body is just a
JSON value). -/
structure ToolSchema where
  name : String
  description : String
  input_schema : JVal

/-- The `ToolFunction` type: an async handler, modelled as a pure function
whose `.error` case is a rejected promise. -/
abbrev ToolFunction : Type := JVal → Except String JVal

/-- The `ToolDefinition` type of `src/index.ts`. -/
structure ToolDefinition where
  schema : ToolSchema
  toolFunction : ToolFunction

/-- The `ToolsMap` type: a JavaScript `Map` keyed by tool name, modelled
as an insertion-ordered association list. -/
abbrev ToolsMap : Type := List (String × ToolDefinition)

/-- `Map.prototype.set` semantics: when the key is present its value is
replaced in place, otherwise the pair is appended at the end. -/
def mapSet {α : Type} : List (String × α) → String → α → List (String × α)
  | [], k, v => [(k, v)]
  | (k0, v0) :: rest, k, v =>
    if k0 = k then (k0, v) :: rest
    else (k0, v0) :: mapSet rest k v

/-- `Map.prototype.get` semantics on the association-list model. -/
def mapGet {α : Type} : List (String × α) → String → Option α
  | [], _ => none
  | (k0, v0) :: rest, k => if k0 = k then some v0 else mapGet rest k

/-- The `AnthropicRequest` type of `src/index.ts` (the fields the
orchestration loop populates). -/
structure AnthropicRequest where
  model : String
  max_tokens : Nat
  tools : List ToolSchema
  messages : List Message

/-- The error taxonomy of the client: endpoint/transport failures (the
axios catch branch), an invocation of an unregistered tool (`Unknown
tool:` throw in `handleTool`), a rejected handler promise, and the
modelling-only case of an exhausted endpoint script. -/
inductive ClientError where
  | endpointError (msg : String)
  | unknownTool (name : String)
  | toolExecutionError (msg : String)
  | scriptExhausted
deriving DecidableEq

/-- One scripted endpoint reply: a response object or a transport error
message. -/
abbrev EndpointReply : Type := Except String AnthropicResponse

/-- The mutable state of an `AnthropicClient` instance: the tool registry
and the retained conversation history, plus the request parameters. -/
structure AnthropicClient where
  tools : ToolsMap
  model : String
  maxTokens : Nat
  messages : List Message

/-- A fresh client, with the defaults of the source constructor. -/
def AnthropicClient.mk0 : AnthropicClient :=
  { tools := [], model := "claude-3-5-sonnet-20241022", maxTokens := 1024,
    messages := [] }

/-- `addTool`: `this.tools.set(tool.schema.name, ...)` followed by
`return this`. -/
def addTool (client : AnthropicClient) (tool : ToolDefinition) : AnthropicClient :=
  { client with tools := mapSet client.tools tool.schema.name tool }

/-- `handleTool`: registry lookup, `Unknown tool:` failure when absent,
otherwise the handler applied to the invocation input; a rejected handler
surfaces as `toolExecutionError`. -/
def handleTool (tools : ToolsMap) (toolUse : ToolUse) : Except ClientError JVal :=
  match mapGet tools toolUse.name with
  | none => Except.error (ClientError.unknownTool toolUse.name)
  | some tool =>
    match tool.toolFunction toolUse.input with
    | Except.error msg => Except.error (ClientError.toolExecutionError msg)
    | Except.ok v => Except.ok v

/-- `typeof result === 'string' ? result : JSON.stringify(result)`. -/
def serializeResult : JVal → String
  | JVal.str s => s
  | v => stringify v

/-- The tool-result turn built in `handleResponse` for one completed
invocation: a user-role message holding a single `tool_result` block
tagged with the invocation id. -/
def toolResultMessage (toolUse : ToolUse) (result : JVal) : Message :=
  { role := "user",
    content := MessageContent.blocks
      [MessageBlock.toolResult
        { tool_use_id := toolUse.id, content := serializeResult result }] }

/-- `response.content.filter(content => content.type === 'tool_use')`. -/
def getToolUses (content : List ContentBlock) : List ToolUse :=
  content.filterMap fun b =>
    match b with
    | ContentBlock.toolUse tu => some tu
    | ContentBlock.text _ => none

/-- The `Promise.all` over the tool batch: the invocations actually
started (first component) and either the first failure or the full list of
tool-result turns in invocation order. -/
def runToolBatch (tools : ToolsMap) :
    List ToolUse → List ToolUse × Except ClientError (List Message)
  | [] => ([], Except.ok [])
  | tu :: rest =>
    match handleTool tools tu with
    | Except.error e => ([tu], Except.error e)
    | Except.ok v =>
      let r := runToolBatch tools rest
      (tu :: r.1,
        match r.2 with
        | Except.error e => Except.error e
        | Except.ok ms => Except.ok (toolResultMessage tu v :: ms))

/-- The outcome of one `handleResponse` step, before any recursion: a
final response, a failed batch, or the tool-result turns to resubmit. -/
inductive StepResult where
  | final (resp : AnthropicResponse)
  | failed (e : ClientError) (invoked : List ToolUse)
  | next (toolResults : List Message) (invoked : List ToolUse)

/-- The non-recursive part of `handleResponse`: a response whose
`stop_reason` is not `'tool_use'` is returned unchanged; otherwise every
`tool_use` block is executed and the batch either fails or yields the
tool-result turns. -/
def handleResponseStep (tools : ToolsMap) (resp : AnthropicResponse) : StepResult :=
  if resp.stop_reason ≠ "tool_use" then StepResult.final resp
  else
    let r := runToolBatch tools (getToolUses resp.content)
    match r.2 with
    | Except.error e => StepResult.failed e r.1
    | Except.ok toolResults => StepResult.next toolResults r.1

/-- The history-reset rule at the top of `createMessage`:
`if (messages.length === 1 && messages[0].role === 'user') this.messages = []`. -/
def resetHistory (history newMessages : List Message) : List Message :=
  match newMessages with
  | [m] => if m.role = "user" then [] else history
  | _ => history

/-- The client state right after the reset-and-append prefix of
`createMessage`, before the request is built. -/
def clientAfterAppend (client : AnthropicClient) (newMessages : List Message) :
    AnthropicClient :=
  { client with messages := resetHistory client.messages newMessages ++ newMessages }

/-- The request object `createMessage` builds: model, token budget, the
schemas of every registered tool, and the full accumulated history. -/
def buildRequest (client : AnthropicClient) : AnthropicRequest :=
  { model := client.model, max_tokens := client.maxTokens,
    tools := client.tools.map (fun p => p.2.schema),
    messages := client.messages }

/-- Everything observable about one exchange: the value the outermost call
resolves or rejects with, the client state afterwards, the requests issued
to the endpoint in order, the handler invocations performed, and the
`newMessages` argument of every (recursive) `createMessage` call. -/
structure Outcome where
  result : Except ClientError AnthropicResponse
  finalClient : AnthropicClient
  requests : List AnthropicRequest
  invoked : List ToolUse
  sends : List (List Message)

/-- `createMessage` together with the recursion at the end of
`handleResponse`, driven by the endpoint script.  Each call consumes one
scripted reply; a `tool_use` response with a successful batch recurses
with only the tool-result turns. -/
def createMessage (client : AnthropicClient) (newMessages : List Message) :
    List EndpointReply → Outcome
  | [] =>
    let client1 := clientAfterAppend client newMessages
    ⟨Except.error ClientError.scriptExhausted, client1, [buildRequest client1],
      [], [newMessages]⟩
  | Except.error msg :: _ =>
    let client1 := clientAfterAppend client newMessages
    ⟨Except.error (ClientError.endpointError ("Anthropic API error: " ++ msg)),
      client1, [buildRequest client1], [], [newMessages]⟩
  | Except.ok resp :: rest =>
    let client1 := clientAfterAppend client newMessages
    match handleResponseStep client1.tools resp with
    | StepResult.final r =>
      ⟨Except.ok r, client1, [buildRequest client1], [], [newMessages]⟩
    | StepResult.failed e inv =>
      ⟨Except.error e, client1, [buildRequest client1], inv, [newMessages]⟩
    | StepResult.next toolResults inv =>
      let o := createMessage client1 toolResults rest
      ⟨o.result, o.finalClient, buildRequest client1 :: o.requests,
        inv ++ o.invoked, newMessages :: o.sends⟩

/-! ## Concrete fixtures, mirroring the example program -/

/-- The handler result of the example `getWeather` tool. -/
def weatherVal : JVal :=
  JVal.obj
    [("temperature", JVal.num 18), ("condition", JVal.str "Heavy Rain"),
     ("humidity", JVal.num 75), ("unit", JVal.str "celsius")]

/-- The handler result of the example `getTraffic` tool. -/
def trafficVal : JVal :=
  JVal.obj
    [("traffic", JVal.str "Heavy"), ("status", JVal.str "Slow"),
     ("unit", JVal.str "10 miles per hour")]

/-- The `getWeather` tool of the example program. -/
def getWeatherTool : ToolDefinition :=
  { schema :=
      { name := "getWeather",
        description := "Get the current weather for a specified location",
        input_schema := JVal.obj [] },
    toolFunction := fun _ => Except.ok weatherVal }

/-- The `getTraffic` tool of the example program. -/
def getTrafficTool : ToolDefinition :=
  { schema :=
      { name := "getTraffic",
        description := "Get the current traffic for a specified location",
        input_schema := JVal.obj [] },
    toolFunction := fun _ => Except.ok trafficVal }

/-- A tool whose handler always rejects, for failure scenarios. -/
def failingTool : ToolDefinition :=
  { schema :=
      { name := "failingTool", description := "always rejects",
        input_schema := JVal.obj [] },
    toolFunction := fun _ => Except.error "boom" }

/-- A client with the two example tools registered. -/
def clientW : AnthropicClient :=
  addTool (addTool AnthropicClient.mk0 getWeatherTool) getTrafficTool

/-- A client that additionally has the failing tool registered. -/
def clientF : AnthropicClient := addTool clientW failingTool

/-- The opening user turn of the example program. -/
def userMsg0 : Message :=
  { role := "user",
    content := MessageContent.str
      "What is the weather like in San Francisco?" }

/-- An invocation of the registered `getWeather` tool. -/
def weatherUse : ToolUse :=
  { id := "toolu_01", name := "getWeather",
    input := JVal.obj [("location", JVal.str "San Francisco, CA")] }

/-- An invocation of the registered `getTraffic` tool. -/
def trafficUse : ToolUse :=
  { id := "toolu_02", name := "getTraffic", input := JVal.obj [] }

/-- An invocation naming a tool absent from every fixture registry. -/
def unknownUse : ToolUse :=
  { id := "toolu_03", name := "getStock", input := JVal.obj [] }

/-- An invocation of the always-rejecting tool. -/
def failingUse : ToolUse :=
  { id := "toolu_04", name := "failingTool", input := JVal.obj [] }

/-- A response requesting both example tools in one batch. -/
def respTools2 : AnthropicResponse :=
  { id := "msg_01", model := "m", stop_reason := "tool_use",
    role := "assistant",
    content := [ContentBlock.text "Let me check",
      ContentBlock.toolUse weatherUse, ContentBlock.toolUse trafficUse] }

/-- A final response (`end_turn`). -/
def respFinal : AnthropicResponse :=
  { id := "msg_02", model := "m", stop_reason := "end_turn",
    role := "assistant", content := [ContentBlock.text "It is raining."] }

/-- A `tool_use` response with zero tool-invocation blocks. -/
def respZero : AnthropicResponse :=
  { id := "msg_03", model := "m", stop_reason := "tool_use",
    role := "assistant", content := [ContentBlock.text "hmm"] }

/-- A batch whose second invocation names an unregistered tool. -/
def respUnknown : AnthropicResponse :=
  { id := "msg_04", model := "m", stop_reason := "tool_use",
    role := "assistant",
    content := [ContentBlock.toolUse weatherUse,
      ContentBlock.toolUse unknownUse] }

/-- A batch whose second invocation has a rejecting handler. -/
def respFailing : AnthropicResponse :=
  { id := "msg_05", model := "m", stop_reason := "tool_use",
    role := "assistant",
    content := [ContentBlock.toolUse weatherUse,
      ContentBlock.toolUse failingUse] }

/-! ## Helper lemmas -/

theorem clientAfterAppend_tools (client : AnthropicClient)
    (newMessages : List Message) :
    (clientAfterAppend client newMessages).tools = client.tools := rfl

theorem clientAfterAppend_messages (client : AnthropicClient)
    (newMessages : List Message) :
    (clientAfterAppend client newMessages).messages =
      resetHistory client.messages newMessages ++ newMessages := rfl

theorem handleResponseStep_notToolUse (tools : ToolsMap)
    (resp : AnthropicResponse) (h : resp.stop_reason ≠ "tool_use") :
    handleResponseStep tools resp = StepResult.final resp := by
  simp [handleResponseStep, h]

theorem createMessage_notToolUse (client : AnthropicClient)
    (newMessages : List Message) (resp : AnthropicResponse)
    (rest : List EndpointReply) (h : resp.stop_reason ≠ "tool_use") :
    createMessage client newMessages (Except.ok resp :: rest) =
      ⟨Except.ok resp, clientAfterAppend client newMessages,
        [buildRequest (clientAfterAppend client newMessages)], [],
        [newMessages]⟩ := by
  simp [createMessage, handleResponseStep_notToolUse _ _ h]

theorem createMessage_step_next (client : AnthropicClient)
    (newMessages : List Message) (resp : AnthropicResponse)
    (rest : List EndpointReply) (trs : List Message) (inv : List ToolUse)
    (h : handleResponseStep client.tools resp = StepResult.next trs inv) :
    createMessage client newMessages (Except.ok resp :: rest) =
      ⟨(createMessage (clientAfterAppend client newMessages) trs rest).result,
        (createMessage (clientAfterAppend client newMessages) trs rest).finalClient,
        buildRequest (clientAfterAppend client newMessages) ::
          (createMessage (clientAfterAppend client newMessages) trs rest).requests,
        inv ++ (createMessage (clientAfterAppend client newMessages) trs rest).invoked,
        newMessages ::
          (createMessage (clientAfterAppend client newMessages) trs rest).sends⟩ := by
  have h1 : (clientAfterAppend client newMessages).tools = client.tools := rfl
  simp [createMessage, h1, h]

theorem createMessage_step_failed (client : AnthropicClient)
    (newMessages : List Message) (resp : AnthropicResponse)
    (rest : List EndpointReply) (e : ClientError) (inv : List ToolUse)
    (h : handleResponseStep client.tools resp = StepResult.failed e inv) :
    createMessage client newMessages (Except.ok resp :: rest) =
      ⟨Except.error e, clientAfterAppend client newMessages,
        [buildRequest (clientAfterAppend client newMessages)], inv,
        [newMessages]⟩ := by
  have h1 : (clientAfterAppend client newMessages).tools = client.tools := rfl
  simp [createMessage, h1, h]

theorem runToolBatch_all_ok (tools : ToolsMap) (tus : List ToolUse)
    (h : ∀ tu ∈ tus, ∃ v, handleTool tools tu = Except.ok v) :
    (runToolBatch tools tus).1 = tus ∧
    ∃ rs, (runToolBatch tools tus).2 = Except.ok rs ∧
      List.Forall₂ (fun m tu => ∃ v, handleTool tools tu = Except.ok v ∧
        m = toolResultMessage tu v) rs tus := by
  induction tus with
  | nil => exact ⟨rfl, [], rfl, List.Forall₂.nil⟩
  | cons tu rest ih =>
    obtain ⟨v, hv⟩ := h tu (List.mem_cons_self tu rest)
    obtain ⟨h1, rs, h2, h3⟩ := ih (fun t ht => h t (List.mem_cons_of_mem _ ht))
    refine ⟨?_, toolResultMessage tu v :: rs, ?_, ?_⟩
    · simp [runToolBatch, hv, h1]
    · simp [runToolBatch, hv, h2]
    · exact List.Forall₂.cons ⟨v, hv, rfl⟩ h3

theorem runToolBatch_first_error (tools : ToolsMap) (pre : List ToolUse)
    (tu : ToolUse) (post : List ToolUse) (e : ClientError)
    (hpre : ∀ p ∈ pre, ∃ v, handleTool tools p = Except.ok v)
    (htu : handleTool tools tu = Except.error e) :
    (runToolBatch tools (pre ++ tu :: post)).2 = Except.error e := by
  induction pre with
  | nil => simp [runToolBatch, htu]
  | cons p pre ih =>
    obtain ⟨v, hv⟩ := hpre p (List.mem_cons_self p pre)
    have ih2 := ih (fun q hq => hpre q (List.mem_cons_of_mem _ hq))
    simp only [List.cons_append, runToolBatch, hv]
    simp [ih2]

theorem handleResponseStep_toolUse_ok (tools : ToolsMap)
    (resp : AnthropicResponse) (h : resp.stop_reason = "tool_use")
    (hok : ∀ tu ∈ getToolUses resp.content,
      ∃ v, handleTool tools tu = Except.ok v) :
    ∃ rs, handleResponseStep tools resp =
        StepResult.next rs (getToolUses resp.content) ∧
      List.Forall₂ (fun m tu => ∃ v, handleTool tools tu = Except.ok v ∧
        m = toolResultMessage tu v) rs (getToolUses resp.content) := by
  obtain ⟨h1, rs, h2, h3⟩ := runToolBatch_all_ok tools (getToolUses resp.content) hok
  refine ⟨rs, ?_, h3⟩
  simp [handleResponseStep, h, h1, h2]

/-- A response with an unrecognized stop reason. -/
def respOdd : AnthropicResponse :=
  { id := "msg_06", model := "m", stop_reason := "max_tokens",
    role := "assistant", content := [ContentBlock.text "truncated"] }

/-- An assistant-authored turn, for the no-reset branch. -/
def assistMsg0 : Message :=
  { role := "assistant", content := MessageContent.str "hello" }

/-- A client whose retained history is nonempty. -/
def clientH : AnthropicClient := { clientW with messages := [userMsg0] }

/-- A second definition sharing the `getWeather` name, for the
last-registration-wins scenario. -/
def getWeatherTool2 : ToolDefinition :=
  { schema :=
      { name := "getWeather", description := "replacement without humidity",
        input_schema := JVal.obj [] },
    toolFunction := fun _ => Except.ok (JVal.str "sunny") }

/-! ## Further helper lemmas -/

theorem createMessage_requests_head (client : AnthropicClient)
    (newMessages : List Message) (script : List EndpointReply) :
    (createMessage client newMessages script).requests.head? =
      some (buildRequest (clientAfterAppend client newMessages)) := by
  cases script with
  | nil => rfl
  | cons r rest =>
    cases r with
    | error msg => rfl
    | ok resp =>
      cases hstep : handleResponseStep (clientAfterAppend client newMessages).tools resp with
      | final r0 => simp [createMessage, hstep]
      | failed e inv => simp [createMessage, hstep]
      | next trs inv => simp [createMessage, hstep]

theorem createMessage_sends_head (client : AnthropicClient)
    (newMessages : List Message) (script : List EndpointReply) :
    (createMessage client newMessages script).sends.head? = some newMessages := by
  cases script with
  | nil => rfl
  | cons r rest =>
    cases r with
    | error msg => rfl
    | ok resp =>
      cases hstep : handleResponseStep (clientAfterAppend client newMessages).tools resp with
      | final r0 => simp [createMessage, hstep]
      | failed e inv => simp [createMessage, hstep]
      | next trs inv => simp [createMessage, hstep]

theorem mapGet_mapSet_same {α : Type} (m : List (String × α)) (k : String)
    (v : α) : mapGet (mapSet m k v) k = some v := by
  induction m with
  | nil => simp [mapSet, mapGet]
  | cons p rest ih =>
    obtain ⟨k0, v0⟩ := p
    by_cases h : k0 = k
    · simp [mapSet, mapGet, h]
    · simp [mapSet, mapGet, h, ih]

theorem mapGet_mapSet_other {α : Type} (m : List (String × α)) (k n : String)
    (v : α) (h : n ≠ k) : mapGet (mapSet m k v) n = mapGet m n := by
  have hk : ¬ k = n := fun e => h e.symm
  induction m with
  | nil => simp [mapSet, mapGet, hk]
  | cons p rest ih =>
    obtain ⟨k0, v0⟩ := p
    by_cases h0 : k0 = k
    · subst h0
      simp [mapSet, mapGet, hk]
    · simp [mapSet, mapGet, h0, ih]

theorem runToolBatch_ok_shape (tools : ToolsMap) (tus : List ToolUse)
    (rs : List Message) (h : (runToolBatch tools tus).2 = Except.ok rs) :
    List.Forall₂ (fun m tu => ∃ v, handleTool tools tu = Except.ok v ∧
      m = toolResultMessage tu v) rs tus := by
  induction tus generalizing rs with
  | nil =>
    simp [runToolBatch] at h
    subst h
    exact List.Forall₂.nil
  | cons tu rest ih =>
    cases hht : handleTool tools tu with
    | error e => simp [runToolBatch, hht] at h
    | ok v =>
      simp only [runToolBatch, hht] at h
      cases hr : (runToolBatch tools rest).2 with
      | error e => rw [hr] at h; simp at h
      | ok ms =>
        rw [hr] at h
        simp only [Except.ok.injEq] at h
        subst h
        exact List.Forall₂.cons ⟨v, hht, rfl⟩ (ih ms hr)

theorem runToolBatch_handler_failure (tools : ToolsMap) (tus : List ToolUse)
    (hreg : ∀ tu ∈ tus, ∃ t, mapGet tools tu.name = some t)
    (hfail : ∃ tu ∈ tus, ∃ t m, mapGet tools tu.name = some t ∧
      t.toolFunction tu.input = Except.error m) :
    ∃ m, (runToolBatch tools tus).2 =
      Except.error (ClientError.toolExecutionError m) := by
  induction tus with
  | nil => simp at hfail
  | cons tu rest ih =>
    cases hht : handleTool tools tu with
    | error e =>
      obtain ⟨t, ht⟩ := hreg tu (List.mem_cons_self tu rest)
      cases hf : t.toolFunction tu.input with
      | error m =>
        have he : e = ClientError.toolExecutionError m := by
          simp [handleTool, ht, hf] at hht
          exact hht.symm
        subst he
        exact ⟨m, by simp [runToolBatch, hht]⟩
      | ok v => simp [handleTool, ht, hf] at hht
    | ok v =>
      obtain ⟨tu2, htu2, t2, m2, ht2, hf2⟩ := hfail
      rcases List.mem_cons.mp htu2 with heq | hmem
      · subst heq
        simp [handleTool, ht2, hf2] at hht
      · obtain ⟨m, hm⟩ := ih
          (fun q hq => hreg q (List.mem_cons_of_mem _ hq))
          ⟨tu2, hmem, t2, m2, ht2, hf2⟩
        exact ⟨m, by simp [runToolBatch, hht, hm]⟩

/-! ## Claim theorems -/

/-- Claim C5: for every model response with stop-reason final (`end_turn`
in the source), the send operation resolves with exactly that response,
unchanged, and issues no further endpoint calls in the exchange: only the
single request that produced the response was sent, and no handler ran. -/
theorem C5_final_resolves_unchanged (client : AnthropicClient)
    (newMessages : List Message) (resp : AnthropicResponse)
    (rest : List EndpointReply) (h : resp.stop_reason = "end_turn") :
    (createMessage client newMessages (Except.ok resp :: rest)).result =
        Except.ok resp ∧
    (createMessage client newMessages
        (Except.ok resp :: rest)).requests.length = 1 ∧
    (createMessage client newMessages (Except.ok resp :: rest)).invoked = [] := by
  have hne : resp.stop_reason ≠ "tool_use" := by simp [h]
  rw [createMessage_notToolUse _ _ _ _ hne]
  exact ⟨rfl, rfl, rfl⟩

/-- Witness for C5 at the fixture final response. -/
theorem C5_witness :
    (createMessage clientW [userMsg0] [Except.ok respFinal]).result =
        Except.ok respFinal ∧
    (createMessage clientW [userMsg0] [Except.ok respFinal]).requests.length = 1 ∧
    (createMessage clientW [userMsg0] [Except.ok respFinal]).invoked = [] :=
  C5_final_resolves_unchanged clientW [userMsg0] respFinal [] rfl

/-- Claim C10: for every model response whose `stop_reason` is any string
other than `tool_use` — not only `end_turn` — the response is treated as
final and returned unchanged, with no error raised, no tool processing
performed, and no further endpoint call. -/
theorem C10_unrecognized_stop_reason_is_final (client : AnthropicClient)
    (newMessages : List Message) (resp : AnthropicResponse)
    (rest : List EndpointReply) (h : resp.stop_reason ≠ "tool_use") :
    (createMessage client newMessages (Except.ok resp :: rest)).result =
        Except.ok resp ∧
    (createMessage client newMessages
        (Except.ok resp :: rest)).requests.length = 1 ∧
    (createMessage client newMessages (Except.ok resp :: rest)).invoked = [] := by
  rw [createMessage_notToolUse _ _ _ _ h]
  exact ⟨rfl, rfl, rfl⟩

/-- Witness for C10 at a response whose stop reason is `max_tokens`, a
value the loop has no branch for. -/
theorem C10_witness :
    (createMessage clientW [userMsg0] [Except.ok respOdd]).result =
        Except.ok respOdd ∧
    (createMessage clientW [userMsg0] [Except.ok respOdd]).requests.length = 1 ∧
    (createMessage clientW [userMsg0] [Except.ok respOdd]).invoked = [] :=
  C10_unrecognized_stop_reason_is_final clientW [userMsg0] respOdd []
    (by decide)

/-- Claim C9: on every path through the send operation — final response,
tool round-trips, endpoint error, batch failure or exhausted script — the
tool registry of the resulting client state equals the registry of the
initial state: only the conversation history is mutated. -/
theorem C9_registry_unchanged (client : AnthropicClient)
    (newMessages : List Message) (script : List EndpointReply) :
    (createMessage client newMessages script).finalClient.tools =
      client.tools := by
  induction script generalizing client newMessages with
  | nil => rfl
  | cons r rest ih =>
    cases r with
    | error msg => rfl
    | ok resp =>
      cases hstep : handleResponseStep
          (clientAfterAppend client newMessages).tools resp with
      | final r0 => simp [createMessage, hstep]; rfl
      | failed e inv => simp [createMessage, hstep]; rfl
      | next trs inv =>
        have h2 := ih (clientAfterAppend client newMessages) trs
        simp [createMessage, hstep]
        rw [h2]
        rfl

/-- Claim C8: `addTool` keys the registry by the tool's name and hands the
same orchestrator back so calls chain; registering a second definition
with an already-used name overwrites the prior one (last registration
wins), a fresh name is retrievable at once, other keys and the remaining
client fields are untouched. -/
theorem C8_registry_last_wins (client : AnthropicClient)
    (t1 t2 t : ToolDefinition) (n : String)
    (h : t1.schema.name = t2.schema.name) (hn : n ≠ t.schema.name) :
    mapGet (addTool (addTool client t1) t2).tools t2.schema.name = some t2 ∧
    mapGet (addTool client t).tools t.schema.name = some t ∧
    (addTool client t).messages = client.messages ∧
    (addTool client t).model = client.model ∧
    (addTool client t).maxTokens = client.maxTokens ∧
    mapGet (addTool client t).tools n = mapGet client.tools n := by
  refine ⟨?_, mapGet_mapSet_same _ _ _, rfl, rfl, rfl,
    mapGet_mapSet_other _ _ _ _ hn⟩
  exact mapGet_mapSet_same _ _ _

/-- Witness for C8: re-registering `getWeather` makes the second
definition the retrieved one, while `getTraffic` is untouched. -/
theorem C8_witness :
    mapGet (addTool (addTool clientW getWeatherTool) getWeatherTool2).tools
        "getWeather" = some getWeatherTool2 ∧
    mapGet (addTool clientW getWeatherTool2).tools "getWeather" =
        some getWeatherTool2 ∧
    mapGet (addTool clientW getWeatherTool2).tools "getTraffic" =
        mapGet clientW.tools "getTraffic" :=
  have h := C8_registry_last_wins clientW getWeatherTool getWeatherTool2
    getWeatherTool2 "getTraffic" rfl (by decide)
  ⟨h.1, h.2.1, h.2.2.2.2.2⟩

/-- Claim C2: a call whose input is a single user-role turn discards the
retained history before appending, so the history inside the request that
is built is exactly that one turn; any other input (several turns, or a
single non-user turn) is appended to the retained history without
discarding. -/
theorem C2_single_user_turn_resets_history :
    (∀ (client : AnthropicClient) (m : Message) (script : List EndpointReply),
      m.role = "user" →
      ((createMessage client [m] script).requests.head?.map
        AnthropicRequest.messages) = some [m]) ∧
    (∀ (client : AnthropicClient) (newMessages : List Message)
      (script : List EndpointReply),
      (¬ ∃ m, newMessages = [m] ∧ m.role = "user") →
      ((createMessage client newMessages script).requests.head?.map
        AnthropicRequest.messages) = some (client.messages ++ newMessages)) := by
  constructor
  · intro client m script h
    rw [createMessage_requests_head]
    simp [buildRequest, clientAfterAppend, resetHistory, h]
  · intro client newMessages script h
    rw [createMessage_requests_head]
    have hreset : resetHistory client.messages newMessages = client.messages := by
      match newMessages with
      | [] => rfl
      | [m] =>
        have hm : m.role ≠ "user" := by
          intro hrole
          exact h ⟨m, rfl, hrole⟩
        simp [resetHistory, hm]
      | m1 :: m2 :: ms => rfl
    simp [buildRequest, clientAfterAppend, hreset]

/-- Witness for C2: a single user turn resets a nonempty history; a
single assistant turn is appended to it. -/
theorem C2_witness :
    ((createMessage clientH [userMsg0] []).requests.head?.map
      AnthropicRequest.messages) = some [userMsg0] ∧
    ((createMessage clientH [assistMsg0] []).requests.head?.map
      AnthropicRequest.messages) = some (clientH.messages ++ [assistMsg0]) :=
  ⟨C2_single_user_turn_resets_history.1 clientH userMsg0 [] rfl,
   C2_single_user_turn_resets_history.2 clientH [assistMsg0] []
    (by
      rintro ⟨m, hm, hrole⟩
      rw [List.cons.injEq] at hm
      rw [← hm.1] at hrole
      exact absurd hrole (by decide))⟩

/-- Claim C1: for a `tool_use` response whose N tool-invocation blocks
(N ≥ 1) all name registered tools with succeeding handlers, exactly those
N handlers are invoked, the next recursive send submits as its new turns
exactly N user-role tool-result turns — the i-th tagged with the i-th
invocation's identifier — none of which is the assistant turn's content,
and when the following reply is final the whole exchange issued exactly
one subsequent endpoint call (two requests in total) regardless of N. -/
theorem C1_tool_batch_roundtrip (client : AnthropicClient)
    (newMessages : List Message) (resp finalResp : AnthropicResponse)
    (h1 : resp.stop_reason = "tool_use")
    (h2 : finalResp.stop_reason ≠ "tool_use")
    (h3 : 1 ≤ (getToolUses resp.content).length)
    (h4 : ∀ tu ∈ getToolUses resp.content,
      ∃ v, handleTool client.tools tu = Except.ok v) :
    (createMessage client newMessages
        [Except.ok resp, Except.ok finalResp]).invoked =
      getToolUses resp.content ∧
    (createMessage client newMessages
        [Except.ok resp, Except.ok finalResp]).requests.length = 2 ∧
    (createMessage client newMessages
        [Except.ok resp, Except.ok finalResp]).result = Except.ok finalResp ∧
    ∃ toolResults : List Message,
      (createMessage client newMessages
          [Except.ok resp, Except.ok finalResp]).sends =
        [newMessages, toolResults] ∧
      List.Forall₂ (fun (m : Message) (tu : ToolUse) =>
          m.role = "user" ∧
          ∃ c : String, m.content = MessageContent.blocks
            [MessageBlock.toolResult { tool_use_id := tu.id, content := c }])
        toolResults (getToolUses resp.content) := by
  obtain ⟨rs, hstep, hshape⟩ :=
    handleResponseStep_toolUse_ok client.tools resp h1 h4
  rw [createMessage_step_next _ _ _ _ _ _ hstep]
  rw [createMessage_notToolUse _ _ _ _ h2]
  refine ⟨by simp, rfl, rfl, rs, rfl, ?_⟩
  refine List.Forall₂.imp ?_ hshape
  rintro m tu ⟨v, hv, rfl⟩
  exact ⟨rfl, serializeResult v, rfl⟩

/-- Witness for C1 at the two-tool fixture batch: both handlers run, the
resubmitted turns are the two tool-result turns, and exactly one
subsequent endpoint call is made. -/
theorem C1_witness :
    (createMessage clientW [userMsg0]
        [Except.ok respTools2, Except.ok respFinal]).invoked =
      getToolUses respTools2.content ∧
    (createMessage clientW [userMsg0]
        [Except.ok respTools2, Except.ok respFinal]).requests.length = 2 ∧
    (createMessage clientW [userMsg0]
        [Except.ok respTools2, Except.ok respFinal]).result =
      Except.ok respFinal ∧
    ∃ toolResults : List Message,
      (createMessage clientW [userMsg0]
          [Except.ok respTools2, Except.ok respFinal]).sends =
        [[userMsg0], toolResults] ∧
      List.Forall₂ (fun (m : Message) (tu : ToolUse) =>
          m.role = "user" ∧
          ∃ c : String, m.content = MessageContent.blocks
            [MessageBlock.toolResult { tool_use_id := tu.id, content := c }])
        toolResults (getToolUses respTools2.content) :=
  C1_tool_batch_roundtrip clientW [userMsg0] respTools2 respFinal rfl
    (by decide) (by decide)
    (by
      intro tu htu
      have : tu = weatherUse ∨ tu = trafficUse := by
        simpa [getToolUses, respTools2] using htu
      rcases this with h | h
      · subst h; exact ⟨weatherVal, rfl⟩
      · subst h; exact ⟨trafficVal, rfl⟩)

/-- Claim C3: when a `tool_use` response carries an invocation naming an
unregistered tool (all invocations before it succeeding), the whole
exchange rejects with the `UnknownTool` error naming the missing tool,
and no further endpoint call is issued after that response — only the
single request that produced it exists, and nothing is resubmitted. -/
theorem C3_unknown_tool_aborts (client : AnthropicClient)
    (newMessages : List Message) (resp : AnthropicResponse)
    (rest : List EndpointReply) (pre post : List ToolUse) (tu : ToolUse)
    (h1 : resp.stop_reason = "tool_use")
    (h2 : getToolUses resp.content = pre ++ tu :: post)
    (h3 : ∀ p ∈ pre, ∃ v, handleTool client.tools p = Except.ok v)
    (h4 : mapGet client.tools tu.name = none) :
    (createMessage client newMessages (Except.ok resp :: rest)).result =
        Except.error (ClientError.unknownTool tu.name) ∧
    (createMessage client newMessages
        (Except.ok resp :: rest)).requests.length = 1 ∧
    (createMessage client newMessages (Except.ok resp :: rest)).sends =
        [newMessages] := by
  have htu : handleTool client.tools tu =
      Except.error (ClientError.unknownTool tu.name) := by
    simp [handleTool, h4]
  have hbatch :=
    runToolBatch_first_error client.tools pre tu post _ h3 htu
  have hstep : handleResponseStep client.tools resp =
      StepResult.failed (ClientError.unknownTool tu.name)
        (runToolBatch client.tools (pre ++ tu :: post)).1 := by
    simp [handleResponseStep, h1, h2, hbatch]
  rw [createMessage_step_failed _ _ _ _ _ _ hstep]
  exact ⟨rfl, rfl, rfl⟩

/-- Witness for C3 at the fixture batch whose second invocation names the
unregistered `getStock` tool. -/
theorem C3_witness :
    (createMessage clientW [userMsg0] [Except.ok respUnknown]).result =
        Except.error (ClientError.unknownTool "getStock") ∧
    (createMessage clientW [userMsg0]
        [Except.ok respUnknown]).requests.length = 1 ∧
    (createMessage clientW [userMsg0] [Except.ok respUnknown]).sends =
        [[userMsg0]] :=
  C3_unknown_tool_aborts clientW [userMsg0] respUnknown []
    [weatherUse] [] unknownUse rfl rfl
    (by
      intro p hp
      have : p = weatherUse := by simpa using hp
      subst this
      exact ⟨weatherVal, rfl⟩)
    rfl

/-- Claim C4: when every invocation of a `tool_use` batch names a
registered tool and at least one handler rejects, the whole exchange
rejects with a `ToolExecutionError` — even though sibling handlers may
have succeeded — and nothing of the batch is submitted afterwards: no
further request is issued, so the completed sibling results are
discarded. -/
theorem C4_handler_failure_aborts (client : AnthropicClient)
    (newMessages : List Message) (resp : AnthropicResponse)
    (rest : List EndpointReply)
    (h1 : resp.stop_reason = "tool_use")
    (hreg : ∀ tu ∈ getToolUses resp.content,
      ∃ t, mapGet client.tools tu.name = some t)
    (hfail : ∃ tu ∈ getToolUses resp.content, ∃ t m,
      mapGet client.tools tu.name = some t ∧
      t.toolFunction tu.input = Except.error m) :
    ∃ m, (createMessage client newMessages
          (Except.ok resp :: rest)).result =
        Except.error (ClientError.toolExecutionError m) ∧
      (createMessage client newMessages
          (Except.ok resp :: rest)).requests.length = 1 ∧
      (createMessage client newMessages (Except.ok resp :: rest)).sends =
        [newMessages] := by
  obtain ⟨m, hm⟩ :=
    runToolBatch_handler_failure client.tools (getToolUses resp.content)
      hreg hfail
  have hstep : handleResponseStep client.tools resp =
      StepResult.failed (ClientError.toolExecutionError m)
        (runToolBatch client.tools (getToolUses resp.content)).1 := by
    simp [handleResponseStep, h1, hm]
  rw [createMessage_step_failed _ _ _ _ _ _ hstep]
  exact ⟨m, rfl, rfl, rfl⟩

/-- Witness for C4 at the fixture batch where `getWeather` succeeds and
the sibling `failingTool` handler rejects with `boom`. -/
theorem C4_witness :
    ∃ m, (createMessage clientF [userMsg0]
          [Except.ok respFailing]).result =
        Except.error (ClientError.toolExecutionError m) ∧
      (createMessage clientF [userMsg0]
          [Except.ok respFailing]).requests.length = 1 ∧
      (createMessage clientF [userMsg0] [Except.ok respFailing]).sends =
        [[userMsg0]] :=
  C4_handler_failure_aborts clientF [userMsg0] respFailing [] rfl
    (by
      intro tu htu
      have : tu = weatherUse ∨ tu = failingUse := by
        simpa [getToolUses, respFailing] using htu
      rcases this with h | h
      · subst h; exact ⟨_, rfl⟩
      · subst h; exact ⟨_, rfl⟩)
    ⟨failingUse,
      List.mem_cons_of_mem _ (List.mem_cons_self _ _),
      failingTool, "boom", rfl, rfl⟩

/-- Counterexample to claim C6: at the fixture `tool_use` response with
zero tool-invocation blocks the exchange does not fail with an
`EndpointError` — it proceeds: a second endpoint call is issued and the
exchange resolves with the later final response, with no handler
invoked. -/
theorem C6_counterexample :
    (createMessage clientW [userMsg0]
        [Except.ok respZero, Except.ok respFinal]).result =
      Except.ok respFinal ∧
    (createMessage clientW [userMsg0]
        [Except.ok respZero, Except.ok respFinal]).requests.length = 2 ∧
    (createMessage clientW [userMsg0]
        [Except.ok respZero, Except.ok respFinal]).invoked = [] :=
  ⟨rfl, rfl, rfl⟩

/-- Amended claim C6: for every `tool_use` response containing zero
tool-invocation blocks, the code raises no error at all — the step
produces an empty batch, no handler is invoked, and the orchestrator
issues one further endpoint call whose new turns are empty, continuing
the exchange with the remaining replies. -/
theorem C6_amended_zero_invocations_loop (client : AnthropicClient)
    (newMessages : List Message) (resp : AnthropicResponse)
    (script : List EndpointReply)
    (h1 : resp.stop_reason = "tool_use")
    (h2 : getToolUses resp.content = []) :
    handleResponseStep client.tools resp = StepResult.next [] [] ∧
    (createMessage client newMessages (Except.ok resp :: script)).result =
      (createMessage (clientAfterAppend client newMessages) [] script).result ∧
    (createMessage client newMessages
        (Except.ok resp :: script)).requests.length =
      1 + (createMessage (clientAfterAppend client newMessages) []
        script).requests.length ∧
    (createMessage client newMessages (Except.ok resp :: script)).sends =
      newMessages ::
        (createMessage (clientAfterAppend client newMessages) [] script).sends ∧
    (createMessage client newMessages
        (Except.ok resp :: script)).sends[1]? = some [] := by
  have hstep : handleResponseStep client.tools resp =
      StepResult.next [] [] := by
    simp [handleResponseStep, h1, h2, runToolBatch]
  rw [createMessage_step_next _ _ _ _ _ _ hstep]
  refine ⟨hstep, rfl, by simp [Nat.add_comm], rfl, ?_⟩
  have hh := createMessage_sends_head
    (clientAfterAppend client newMessages) [] script
  simp only [Outcome.sends]
  cases hs : (createMessage (clientAfterAppend client newMessages) []
      script).sends with
  | nil => rw [hs] at hh; simp at hh
  | cons x xs =>
    rw [hs] at hh
    simp at hh
    simp [hs, hh]

/-- Witness for the amended claim C6 at the zero-invocation fixture. -/
theorem C6_amended_witness :
    handleResponseStep clientW.tools respZero = StepResult.next [] [] ∧
    (createMessage clientW [userMsg0]
        [Except.ok respZero, Except.ok respFinal]).result =
      (createMessage (clientAfterAppend clientW [userMsg0]) []
        [Except.ok respFinal]).result ∧
    (createMessage clientW [userMsg0]
        [Except.ok respZero, Except.ok respFinal]).requests.length =
      1 + (createMessage (clientAfterAppend clientW [userMsg0]) []
        [Except.ok respFinal]).requests.length ∧
    (createMessage clientW [userMsg0]
        [Except.ok respZero, Except.ok respFinal]).sends =
      [userMsg0] ::
        (createMessage (clientAfterAppend clientW [userMsg0]) []
          [Except.ok respFinal]).sends ∧
    (createMessage clientW [userMsg0]
        [Except.ok respZero, Except.ok respFinal]).sends[1]? = some [] :=
  C6_amended_zero_invocations_loop clientW [userMsg0] respZero
    [Except.ok respFinal] rfl rfl

/-- Claim C7: every tool-result turn fed back after a successful batch has
role `user`, carries the originating invocation identifier in its single
`tool_result` block, and its content is the serialized handler result —
where a string result passes through unchanged and a non-string result is
serialized with the JSON serializer. -/
theorem C7_tool_result_shape (tools : ToolsMap) (resp : AnthropicResponse)
    (toolResults : List Message) (inv : List ToolUse)
    (h : handleResponseStep tools resp = StepResult.next toolResults inv) :
    List.Forall₂ (fun (m : Message) (tu : ToolUse) =>
        m.role = "user" ∧
        ∃ v, handleTool tools tu = Except.ok v ∧
          m.content = MessageContent.blocks
            [MessageBlock.toolResult
              { tool_use_id := tu.id, content := serializeResult v }])
      toolResults (getToolUses resp.content) ∧
    (∀ s, serializeResult (JVal.str s) = s) ∧
    (∀ v : JVal, (∀ s, v ≠ JVal.str s) → serializeResult v = stringify v) := by
  refine ⟨?_, fun s => rfl, ?_⟩
  · by_cases hsr : resp.stop_reason = "tool_use"
    · simp only [handleResponseStep, hsr, ne_eq, not_true_eq_false,
        if_false] at h
      cases hr : (runToolBatch tools (getToolUses resp.content)).2 with
      | error e => rw [hr] at h; simp at h
      | ok ms =>
        rw [hr] at h
        simp only [StepResult.next.injEq] at h
        have hshape := runToolBatch_ok_shape tools _ ms hr
        rw [← h.1]
        refine List.Forall₂.imp ?_ hshape
        rintro m tu ⟨v, hv, rfl⟩
        exact ⟨rfl, v, hv, rfl⟩
    · rw [handleResponseStep_notToolUse _ _ hsr] at h
      simp at h
  · intro v hv
    match v with
    | JVal.null => rfl
    | JVal.bool b => rfl
    | JVal.num n => rfl
    | JVal.str s => exact absurd rfl (hv s)
    | JVal.arr xs => rfl
    | JVal.obj fs => rfl

/-- Witness for C7 at the two-tool fixture batch: the two concrete
tool-result turns, string pass-through at a sample string, and JSON
serialization of the sample object result. -/
theorem C7_witness :
    (List.Forall₂ (fun (m : Message) (tu : ToolUse) =>
        m.role = "user" ∧
        ∃ v, handleTool clientW.tools tu = Except.ok v ∧
          m.content = MessageContent.blocks
            [MessageBlock.toolResult
              { tool_use_id := tu.id, content := serializeResult v }])
      [toolResultMessage weatherUse weatherVal,
        toolResultMessage trafficUse trafficVal]
      (getToolUses respTools2.content)) ∧
    serializeResult (JVal.str "already text") = "already text" ∧
    serializeResult weatherVal = stringify weatherVal :=
  ⟨(C7_tool_result_shape clientW.tools respTools2
      [toolResultMessage weatherUse weatherVal,
        toolResultMessage trafficUse trafficVal]
      [weatherUse, trafficUse] rfl).1,
   (C7_tool_result_shape clientW.tools respTools2
      [toolResultMessage weatherUse weatherVal,
        toolResultMessage trafficUse trafficVal]
      [weatherUse, trafficUse] rfl).2.1 "already text",
   (C7_tool_result_shape clientW.tools respTools2
      [toolResultMessage weatherUse weatherVal,
        toolResultMessage trafficUse trafficVal]
      [weatherUse, trafficUse] rfl).2.2 weatherVal
      (fun s h => by simp [weatherVal] at h)⟩
